import Mathlib

/-!
# Verification of the ERP attendance and service-ticket engine

Shallow embedding of the core state and operations of `src/erp.py`
(a Streamlit + SQLAlchemy internal-operations app):

* the `users`, `attendance` and `service_tickets` tables become lists of
  records inside an `ErpState`, with the auto-increment primary keys made
  explicit (`nextUserId`, `nextAttendanceId`, `nextTicketId`);
* each mutating UI handler becomes a function `ErpState → … → Except ErpError …`
  whose branch structure mirrors the handler's `if`/query structure
  (`staff_attendance` check-in / check-out, `client_service_request`,
  `manager_service_tickets` assignment, `staff_assigned_tickets` completion,
  `register_user` / `create_user`);
* UI situations where a mutation is simply not offered (no button rendered)
  are modelled as the corresponding error from the spec's error taxonomy;
* dates and times of day become natural numbers (only equality and order on
  them matter to the code); SQLAlchemy queries keep rows in insertion
  (primary-key) order, so lists are appended at the tail and `.first()`
  becomes `List.find?`.

bcrypt hashing is an external dependency of the repository; it is modelled
as a placeholder injection (no property below depends on hash values).
-/

namespace Erp

/-- A row of the `users` table (`class User` in `erp.py`).
`salary` is a `Float` column in the source; it is modelled as a rational,
which is exact for every value the program stores. -/
structure User where
  user_id : Nat
  full_name : String
  phone_number : String
  email : String
  aadhar_number : String
  service_domain : String
  role : String
  level_of_employment : String
  date_of_joining : Nat
  salary : Rat
  certifications : String
  password_hash : String
deriving DecidableEq, Repr

/-- A row of the `attendance` table (`class Attendance` in `erp.py`).
`check_in` and `check_out` are nullable `Time` columns. -/
structure AttendanceRecord where
  attendance_id : Nat
  user_id : Nat
  date : Nat
  check_in : Option Nat
  check_out : Option Nat
deriving DecidableEq, Repr

/-- A row of the `service_tickets` table (`class ServiceTicket` in `erp.py`).
`status` is a free-form string column in the source; the code only ever
stores `"Pending"`, `"In Progress"` and `"Completed"`. -/
structure ServiceTicket where
  ticket_id : Nat
  client_id : Nat
  service_type : String
  description : String
  assigned_to : Option Nat
  status : String
  created_at : Nat
  updated_at : Nat
deriving DecidableEq, Repr

/-- The persistent state of the application: the three tables plus the
auto-increment counters of their integer primary keys. -/
structure ErpState where
  users : List User
  attendance : List AttendanceRecord
  tickets : List ServiceTicket
  nextUserId : Nat
  nextAttendanceId : Nat
  nextTicketId : Nat
deriving DecidableEq, Repr

/-- The empty database created by `Base.metadata.create_all`. -/
def initState : ErpState :=
  { users := [], attendance := [], tickets := [], nextUserId := 1,
    nextAttendanceId := 1, nextTicketId := 1 }

/-- The caller-facing error taxonomy of the spec (§7).  `PasswordMismatch`
models the `"Passwords do not match!"` rejection of `register_user`;
`UnknownTicket` covers a ticket id that names no row (the UI only ever acts
on listed tickets).  `InvalidRole` is declared by the spec's taxonomy but no
operation below ever produces it: the source never validates roles. -/
inductive ErpError where
  | AlreadyCheckedIn
  | NoOpenSession
  | AlreadyCheckedOut
  | InvalidTransition
  | UnknownStaff
  | NotAssignee
  | UnknownTicket
  | PasswordMismatch
  | DuplicateEmail
  | InvalidRole
deriving DecidableEq, Repr

/-- `hash_password` in `erp.py` calls bcrypt; modelled as a placeholder
injection, since no verified property depends on the hash's value. -/
def hash_password (password : String) : String :=
  "bcrypt$" ++ password

/-- The dictionary `user_data` consumed by `create_user`. -/
structure UserData where
  full_name : String
  phone_number : String
  email : String
  aadhar_number : String
  service_domain : String
  role : String
  level_of_employment : String
  date_of_joining : Nat
  salary : Rat
  certifications : String
  password : String
deriving DecidableEq, Repr

/-- `create_user(db, user_data)`: unconditionally inserts a new `User` row
built from `user_data`, hashing the password.  Note: it performs no
validation at all, in particular none of the role. -/
def create_user (s : ErpState) (d : UserData) : ErpState × User :=
  let u : User :=
    { user_id := s.nextUserId, full_name := d.full_name,
      phone_number := d.phone_number, email := d.email,
      aadhar_number := d.aadhar_number, service_domain := d.service_domain,
      role := d.role, level_of_employment := d.level_of_employment,
      date_of_joining := d.date_of_joining, salary := d.salary,
      certifications := d.certifications,
      password_hash := hash_password d.password }
  ({ s with users := s.users ++ [u], nextUserId := s.nextUserId + 1 }, u)

/-- `get_user_by_email`: `db.query(User).filter(User.email == email).first()`. -/
def get_user_by_email (s : ErpState) (email : String) : Option User :=
  s.users.find? (fun u => u.email == email)

/-- The role options offered by the `register_user` selectbox. -/
def roleOptions : List String :=
  ["staff", "client", "manager", "admin"]

/-- The `register_user` form input: the `create_user` fields plus the
confirm-password box. -/
structure Registration where
  full_name : String
  phone_number : String
  email : String
  aadhar_number : String
  service_domain : String
  role : String
  level_of_employment : String
  date_of_joining : Nat
  salary : Rat
  certifications : String
  password : String
  confirm_password : String
deriving DecidableEq, Repr

/-- The `user_data` dictionary `register_user` builds for `create_user`. -/
def Registration.toUserData (r : Registration) : UserData :=
  { full_name := r.full_name, phone_number := r.phone_number,
    email := r.email, aadhar_number := r.aadhar_number,
    service_domain := r.service_domain, role := r.role,
    level_of_employment := r.level_of_employment,
    date_of_joining := r.date_of_joining, salary := r.salary,
    certifications := r.certifications, password := r.password }

/-- `register_user` (the `if st.button("Register")` branch): rejects a
password/confirm mismatch, then a duplicate email, then calls
`create_user`. -/
def register_user (s : ErpState) (r : Registration) :
    Except ErpError (ErpState × User) :=
  if r.password ≠ r.confirm_password then
    .error .PasswordMismatch
  else
    match get_user_by_email s r.email with
    | some _ => .error .DuplicateEmail
    | none => .ok (create_user s r.toUserData)

/-- `db.query(Attendance).filter(Attendance.user_id == user_id,
Attendance.date == today).first()` in `staff_attendance`. -/
def findAttendance (s : ErpState) (uid d : Nat) : Option AttendanceRecord :=
  s.attendance.find? (fun r => r.user_id == uid && r.date == d)

/-- The check-in branch of `staff_attendance`: the `Check In` button is
only rendered when no attendance record for `(user, today)` exists; when a
record exists the attempt is the spec's `AlreadyCheckedIn` failure. -/
def checkIn (s : ErpState) (uid d nowTime : Nat) : Except ErpError ErpState :=
  match findAttendance s uid d with
  | some _ => .error .AlreadyCheckedIn
  | none =>
      .ok { s with
        attendance := s.attendance ++
          [{ attendance_id := s.nextAttendanceId, user_id := uid, date := d,
             check_in := some nowTime, check_out := none }],
        nextAttendanceId := s.nextAttendanceId + 1 }

/-- In-place mutation `attendance_record.check_out = datetime.now().time()`
of the row `.first()` returned: update the first record matching
`(uid, d)`. -/
def setCheckOut (uid d nowTime : Nat) :
    List AttendanceRecord → List AttendanceRecord
  | [] => []
  | r :: rest =>
      if r.user_id == uid && r.date == d then
        { r with check_out := some nowTime } :: rest
      else
        r :: setCheckOut uid d nowTime rest

/-- The check-out branch of `staff_attendance`: with no record for today the
attempt is the spec's `NoOpenSession` failure; with a closed record (the
"already checked in and out" branch) it is `AlreadyCheckedOut`; on an open
record the `Check Out` button stamps `check_out`. -/
def checkOut (s : ErpState) (uid d nowTime : Nat) : Except ErpError ErpState :=
  match findAttendance s uid d with
  | none => .error .NoOpenSession
  | some r =>
      match r.check_out with
      | some _ => .error .AlreadyCheckedOut
      | none => .ok { s with attendance := setCheckOut uid d nowTime s.attendance }

/-- The service-type options offered by the `client_service_request`
selectbox. -/
def serviceCategories : List String :=
  ["Housekeeping", "Pantry", "Car Driver", "Data Entry", "Electrician",
   "Plumber", "Gardener"]

/-- `client_service_request`'s `Submit Request` button: unconditionally
inserts a new `"Pending"` ticket with `assigned_to` null and both
timestamps set to now.  Note: the handler validates neither the
description (empty is accepted) nor the service type (the selectbox alone
restricts it to `serviceCategories`). -/
def raiseTicket (s : ErpState) (clientId : Nat) (serviceType descr : String)
    (now : Nat) : Except ErpError (ErpState × ServiceTicket) :=
  let t : ServiceTicket :=
    { ticket_id := s.nextTicketId, client_id := clientId,
      service_type := serviceType, description := descr,
      assigned_to := none, status := "Pending",
      created_at := now, updated_at := now }
  .ok ({ s with tickets := s.tickets ++ [t], nextTicketId := s.nextTicketId + 1 }, t)

/-- Row lookup by primary key among the listed tickets. -/
def findTicket (s : ErpState) (tid : Nat) : Option ServiceTicket :=
  s.tickets.find? (fun t => t.ticket_id == tid)

/-- SQLAlchemy's in-place mutation of one ticket row: replace the first
ticket carrying this primary key. -/
def replaceTicket (tid : Nat) (t : ServiceTicket) :
    List ServiceTicket → List ServiceTicket
  | [] => []
  | x :: rest =>
      if x.ticket_id == tid then t :: rest else x :: replaceTicket tid t rest

/-- `db.query(User).filter(User.role=="staff")` membership: whether `uid`
is a user with role `staff` (the assignment selectbox offers exactly
those). -/
def isStaffUser (s : ErpState) (uid : Nat) : Bool :=
  s.users.any (fun u => u.role == "staff" && u.user_id == uid)

/-- The assignment action of `manager_service_tickets`: the assign controls
are only rendered under `if ticket.status == "Pending"` (otherwise the
attempt is the spec's `InvalidTransition` failure), and the selectbox only
offers users with role `staff` (anyone else is the spec's `UnknownStaff`
failure); on success `assigned_to` is set, status becomes `"In Progress"`
and `updated_at` is refreshed by the column's `onupdate`. -/
def assignTicket (s : ErpState) (tid staffId now : Nat) :
    Except ErpError ErpState :=
  match findTicket s tid with
  | none => .error .UnknownTicket
  | some t =>
      if t.status = "Pending" then
        if isStaffUser s staffId then
          .ok
            { s with
              tickets :=
                replaceTicket tid
                  { t with
                    assigned_to := some staffId, status := "In Progress",
                    updated_at := now }
                  s.tickets }
        else .error .UnknownStaff
      else .error .InvalidTransition

/-- The completion action of `staff_assigned_tickets`: tickets are listed
under `filter(ServiceTicket.assigned_to == user_id)` (acting on any other
ticket is the spec's `NotAssignee` failure), and the complete button is only
rendered under `if ticket.status != "Completed"` (otherwise
`InvalidTransition`); on success status becomes `"Completed"` and
`updated_at` is refreshed. -/
def completeTicket (s : ErpState) (tid uid now : Nat) :
    Except ErpError ErpState :=
  match findTicket s tid with
  | none => .error .UnknownTicket
  | some t =>
      if t.assigned_to = some uid then
        if t.status = "Completed" then .error .InvalidTransition
        else
          .ok
            { s with
              tickets :=
                replaceTicket tid
                  { t with status := "Completed", updated_at := now }
                  s.tickets }
      else .error .NotAssignee

/-- `attendance_report`: `filter(Attendance.date.between(start_date,
end_date)).all()` — the inclusive date-range filter, with rows kept in
table (insertion) order; the query has no `order_by`. -/
def attendance_report (s : ErpState) (startDate endDate : Nat) :
    List AttendanceRecord :=
  s.attendance.filter (fun r => startDate ≤ r.date && r.date ≤ endDate)

/-- One user intent against the engine (§2's control flow). -/
inductive Op where
  | register (r : Registration)
  | checkIn (uid d nowTime : Nat)
  | checkOut (uid d nowTime : Nat)
  | raiseTicket (clientId : Nat) (serviceType descr : String) (now : Nat)
  | assignTicket (tid staffId now : Nat)
  | completeTicket (tid uid now : Nat)
deriving DecidableEq, Repr

/-- Execute one intent; a failed intent commits nothing (§7: every error
leaves the persisted state exactly as it was). -/
def applyOp (s : ErpState) : Op → ErpState
  | .register r =>
      match register_user s r with
      | .ok (s', _) => s'
      | .error _ => s
  | .checkIn uid d t =>
      match checkIn s uid d t with
      | .ok s' => s'
      | .error _ => s
  | .checkOut uid d t =>
      match checkOut s uid d t with
      | .ok s' => s'
      | .error _ => s
  | .raiseTicket cid st de n =>
      match raiseTicket s cid st de n with
      | .ok (s', _) => s'
      | .error _ => s
  | .assignTicket tid sid n =>
      match assignTicket s tid sid n with
      | .ok s' => s'
      | .error _ => s
  | .completeTicket tid uid n =>
      match completeTicket s tid uid n with
      | .ok s' => s'
      | .error _ => s

/-- Execute a sequence of intents from a given state. -/
def run (s : ErpState) (ops : List Op) : ErpState :=
  ops.foldl applyOp s

/-- States reachable from the empty database by some sequence of intents. -/
def Reachable (s : ErpState) : Prop :=
  ∃ ops : List Op, run initState ops = s

/-- Whether a call to the engine succeeded. -/
def erpSucceeds {α : Type} : Except ErpError α → Bool
  | .ok _ => true
  | .error _ => false

/-- The ticket returned by a successful `raiseTicket`, if any. -/
def raisedTicket (e : Except ErpError (ErpState × ServiceTicket)) :
    Option ServiceTicket :=
  match e with
  | .ok p => some p.2
  | .error _ => none

/-- The user created by a successful `register_user`, if any. -/
def registeredUser (e : Except ErpError (ErpState × User)) : Option User :=
  match e with
  | .ok p => some p.2
  | .error _ => none

/-- Comparison predicate taken from the spec's words (§4.3: the report is
"ordered by date then user identifier"): whether a list of attendance
records is sorted by date, ties broken by user id.  This follows the SPEC,
not the source, and is compared against `attendance_report`. -/
def sortedByDateUser : List AttendanceRecord → Bool
  | [] => true
  | [_] => true
  | a :: b :: rest =>
      (Nat.blt a.date b.date ||
        (a.date == b.date && Nat.ble a.user_id b.user_id)) &&
      sortedByDateUser (b :: rest)

/-! ## Concrete scenario data (used to witness the verified properties) -/

/-- A staff registration (all form fields filled, matching passwords). -/
def staffReg : Registration :=
  { full_name := "S One", phone_number := "1", email := "s1@example.com",
    aadhar_number := "a1", service_domain := "", role := "staff",
    level_of_employment := "", date_of_joining := 0, salary := 0,
    certifications := "", password := "pw", confirm_password := "pw" }

/-- A second staff registration with a distinct email. -/
def staffReg2 : Registration :=
  { staffReg with full_name := "S Two", email := "s2@example.com",
                  aadhar_number := "a2" }

/-- A registration whose role is not one of the four enum values. -/
def regWizard : Registration :=
  { staffReg with email := "w@example.com", aadhar_number := "a9",
                  role := "wizard" }

/-- A registration whose confirm-password differs from the password. -/
def regMismatch : Registration :=
  { staffReg with email := "m@example.com", aadhar_number := "a8",
                  confirm_password := "different" }

/-- State: one staff user (id 1) checked in on day 3 at minute 540. -/
def sAtt : ErpState :=
  run initState [.register staffReg, .checkIn 1 3 540]

/-- State: the `sAtt` session closed at minute 900. -/
def sAttClosed : ErpState :=
  run initState [.register staffReg, .checkIn 1 3 540, .checkOut 1 3 900]

/-- State: one staff user and one pending ticket (id 1, client 5). -/
def sPend : ErpState :=
  run initState [.register staffReg, .raiseTicket 5 "Plumber" "leak" 10]

/-- State: the `sPend` ticket assigned to staff 1 (now In Progress). -/
def sProg : ErpState :=
  run initState [.register staffReg, .raiseTicket 5 "Plumber" "leak" 10,
    .assignTicket 1 1 20]

/-- State: two staff users; user 2 checked in on day 3 before user 1. -/
def sReport : ErpState :=
  run initState [.register staffReg, .register staffReg2,
    .checkIn 2 3 540, .checkIn 1 3 545]

/-- The pending ticket stored in `sPend`. -/
def tPend : ServiceTicket :=
  { ticket_id := 1, client_id := 5, service_type := "Plumber",
    description := "leak", assigned_to := none, status := "Pending",
    created_at := 10, updated_at := 10 }

/-- The assigned ticket stored in `sProg`. -/
def tProg : ServiceTicket :=
  { tPend with assigned_to := some 1, status := "In Progress",
               updated_at := 20 }

/-! ## Well-formedness invariant -/

/-- Per-ticket invariant (§3): the status is one of the three workflow
states, and `assigned_to` is set exactly on started tickets. -/
def TicketOK (t : ServiceTicket) : Prop :=
  (t.status = "Pending" ∨ t.status = "In Progress" ∨ t.status = "Completed") ∧
  (t.assigned_to.isSome = true ↔
    (t.status = "In Progress" ∨ t.status = "Completed"))

/-- Database well-formedness: at most one attendance row per `(user, date)`,
every ticket satisfies `TicketOK`, and ticket primary keys are distinct and
below the auto-increment counter. -/
def WF (s : ErpState) : Prop :=
  s.attendance.Pairwise (fun a b => ¬(a.user_id = b.user_id ∧ a.date = b.date)) ∧
  (∀ t ∈ s.tickets, TicketOK t) ∧
  s.tickets.Pairwise (fun a b => a.ticket_id ≠ b.ticket_id) ∧
  (∀ t ∈ s.tickets, t.ticket_id < s.nextTicketId)

/-! ## List helper lemmas -/

theorem find?_append_some {α : Type} {p : α → Bool} {l₁ l₂ : List α} {a : α}
    (h : l₁.find? p = some a) : (l₁ ++ l₂).find? p = some a := by
  rw [List.find?_append, h]; rfl

theorem find?_cons_pos {α : Type} (p : α → Bool) (a : α) (l : List α)
    (h : p a = true) : (a :: l).find? p = some a :=
  List.find?_cons_of_pos l h

theorem find?_cons_neg {α : Type} (p : α → Bool) (a : α) (l : List α)
    (h : ¬ p a = true) : (a :: l).find? p = l.find? p :=
  List.find?_cons_of_neg l h

theorem filter_cons_pos {α : Type} (p : α → Bool) (a : α) (l : List α)
    (h : p a = true) : (a :: l).filter p = a :: l.filter p :=
  List.filter_cons_of_pos h

theorem filter_cons_neg {α : Type} (p : α → Bool) (a : α) (l : List α)
    (h : ¬ p a = true) : (a :: l).filter p = l.filter p :=
  List.filter_cons_of_neg h

theorem mem_replaceTicket {tid : Nat} {t : ServiceTicket} :
    ∀ {l : List ServiceTicket} {x : ServiceTicket},
      x ∈ replaceTicket tid t l → x ∈ l ∨ x = t := by
  intro l
  induction l with
  | nil => intro x h; simp [replaceTicket] at h
  | cons y rest ih =>
    intro x h
    simp only [replaceTicket] at h
    split at h
    · rcases List.mem_cons.mp h with h1 | h1
      · exact Or.inr h1
      · exact Or.inl (List.mem_cons_of_mem _ h1)
    · rcases List.mem_cons.mp h with h1 | h1
      · subst h1; exact Or.inl (List.mem_cons_self _ _)
      · rcases ih h1 with h2 | h2
        · exact Or.inl (List.mem_cons_of_mem _ h2)
        · exact Or.inr h2

theorem pairwise_replaceTicket {tid : Nat} {t : ServiceTicket}
    (ht : t.ticket_id = tid) :
    ∀ {l : List ServiceTicket},
      l.Pairwise (fun a b => a.ticket_id ≠ b.ticket_id) →
      (replaceTicket tid t l).Pairwise (fun a b => a.ticket_id ≠ b.ticket_id) := by
  intro l
  induction l with
  | nil => intro _; simp [replaceTicket]
  | cons y rest ih =>
    intro hp
    rcases List.pairwise_cons.mp hp with ⟨hy, hrest⟩
    simp only [replaceTicket]
    split
    · next hcase =>
      refine List.pairwise_cons.mpr ⟨?_, hrest⟩
      intro b hb
      have hyt : y.ticket_id = tid := by simpa using hcase
      rw [ht, ← hyt]
      exact hy b hb
    · next hcase =>
      refine List.pairwise_cons.mpr ⟨?_, ih hrest⟩
      intro b hb
      rcases mem_replaceTicket hb with h | h
      · exact hy b h
      · subst h
        rw [ht]
        intro hEq
        exact hcase (by simpa using hEq)

theorem find?_replaceTicket_self {tid : Nat} {t : ServiceTicket}
    (ht : t.ticket_id = tid) :
    ∀ {l : List ServiceTicket} {t0 : ServiceTicket},
      l.find? (fun x => x.ticket_id == tid) = some t0 →
      (replaceTicket tid t l).find? (fun x => x.ticket_id == tid) = some t := by
  intro l
  induction l with
  | nil => intro t0 h; simp at h
  | cons y rest ih =>
    intro t0 h
    simp only [replaceTicket]
    by_cases hy : (y.ticket_id == tid) = true
    · rw [if_pos hy]
      exact find?_cons_pos (fun x => x.ticket_id == tid) t rest (by simpa using ht)
    · rw [if_neg hy]
      rw [find?_cons_neg (fun x => x.ticket_id == tid) y rest hy] at h
      rw [find?_cons_neg (fun x => x.ticket_id == tid) y (replaceTicket tid t rest) hy]
      exact ih h

theorem find?_replaceTicket_other {tid tid2 : Nat} {t : ServiceTicket}
    (hne : tid2 ≠ tid) (ht : t.ticket_id = tid) :
    ∀ {l : List ServiceTicket},
      (replaceTicket tid t l).find? (fun x => x.ticket_id == tid2)
        = l.find? (fun x => x.ticket_id == tid2) := by
  intro l
  induction l with
  | nil => simp [replaceTicket]
  | cons y rest ih =>
    simp only [replaceTicket]
    by_cases hy : (y.ticket_id == tid) = true
    · rw [if_pos hy]
      have hyt : y.ticket_id = tid := by simpa using hy
      have h1 : ¬ ((t.ticket_id == tid2) = true) := by
        simp only [beq_iff_eq, ht]
        exact fun h => hne h.symm
      have h2 : ¬ ((y.ticket_id == tid2) = true) := by
        simp only [beq_iff_eq, hyt]
        exact fun h => hne h.symm
      rw [find?_cons_neg (fun x => x.ticket_id == tid2) t rest h1,
        find?_cons_neg (fun x => x.ticket_id == tid2) y rest h2]
    · rw [if_neg hy]
      by_cases hpy : (y.ticket_id == tid2) = true
      · rw [find?_cons_pos (fun x => x.ticket_id == tid2) y
            (replaceTicket tid t rest) hpy,
          find?_cons_pos (fun x => x.ticket_id == tid2) y rest hpy]
      · rw [find?_cons_neg (fun x => x.ticket_id == tid2) y
            (replaceTicket tid t rest) hpy,
          find?_cons_neg (fun x => x.ticket_id == tid2) y rest hpy]
        exact ih

theorem mem_setCheckOut_key {uid d n : Nat} :
    ∀ {l : List AttendanceRecord} {x : AttendanceRecord},
      x ∈ setCheckOut uid d n l →
      ∃ y ∈ l, x.user_id = y.user_id ∧ x.date = y.date := by
  intro l
  induction l with
  | nil => intro x h; simp [setCheckOut] at h
  | cons y rest ih =>
    intro x h
    simp only [setCheckOut] at h
    split at h
    · rcases List.mem_cons.mp h with h1 | h1
      · exact ⟨y, List.mem_cons_self _ _, by subst h1; exact ⟨rfl, rfl⟩⟩
      · exact ⟨x, List.mem_cons_of_mem _ h1, rfl, rfl⟩
    · rcases List.mem_cons.mp h with h1 | h1
      · exact ⟨y, List.mem_cons_self _ _, by subst h1; exact ⟨rfl, rfl⟩⟩
      · rcases ih h1 with ⟨z, hz, hco⟩
        exact ⟨z, List.mem_cons_of_mem _ hz, hco⟩

theorem pairwise_setCheckOut {uid d n : Nat} :
    ∀ {l : List AttendanceRecord},
      l.Pairwise (fun a b => ¬(a.user_id = b.user_id ∧ a.date = b.date)) →
      (setCheckOut uid d n l).Pairwise
        (fun a b => ¬(a.user_id = b.user_id ∧ a.date = b.date)) := by
  intro l
  induction l with
  | nil => intro _; simp [setCheckOut]
  | cons y rest ih =>
    intro hp
    rcases List.pairwise_cons.mp hp with ⟨hy, hrest⟩
    simp only [setCheckOut]
    split
    · refine List.pairwise_cons.mpr ⟨?_, hrest⟩
      intro b hb
      exact hy b hb
    · refine List.pairwise_cons.mpr ⟨?_, ih hrest⟩
      intro b hb
      rcases mem_setCheckOut_key hb with ⟨z, hz, h1, h2⟩
      intro hcontra
      exact hy z hz ⟨hcontra.1.trans h1, hcontra.2.trans h2⟩

theorem find?_setCheckOut {uid d n : Nat} :
    ∀ {l : List AttendanceRecord} {r : AttendanceRecord},
      l.find? (fun x => x.user_id == uid && x.date == d) = some r →
      (setCheckOut uid d n l).find? (fun x => x.user_id == uid && x.date == d)
        = some { r with check_out := some n } := by
  intro l
  induction l with
  | nil => intro r h; simp at h
  | cons y rest ih =>
    intro r h
    simp only [setCheckOut]
    by_cases hy : (y.user_id == uid && y.date == d) = true
    · rw [if_pos hy]
      rw [find?_cons_pos (fun x => x.user_id == uid && x.date == d) y rest hy] at h
      have hyr : y = r := by injection h
      subst hyr
      exact find?_cons_pos (fun x => x.user_id == uid && x.date == d)
        ({ y with check_out := some n }) rest hy
    · rw [if_neg hy]
      rw [find?_cons_neg (fun x => x.user_id == uid && x.date == d) y rest hy] at h
      rw [find?_cons_neg (fun x => x.user_id == uid && x.date == d) y
        (setCheckOut uid d n rest) hy]
      exact ih h

/-! ## Preservation of well-formedness -/

theorem wf_initState : WF initState :=
  ⟨List.Pairwise.nil, by intro t ht; simp [initState] at ht,
   List.Pairwise.nil, by intro t ht; simp [initState] at ht⟩

theorem wf_register (s : ErpState) (r : Registration) (h : WF s) :
    WF (applyOp s (.register r)) := by
  simp only [applyOp]
  cases hc : register_user s r with
  | error e => exact h
  | ok p =>
    unfold register_user at hc
    split at hc
    · cases hc
    · split at hc
      · cases hc
      · cases hc
        exact ⟨h.1, h.2.1, h.2.2.1, h.2.2.2⟩

theorem wf_checkIn (s : ErpState) (uid d n : Nat) (h : WF s) :
    WF (applyOp s (.checkIn uid d n)) := by
  simp only [applyOp]
  cases hc : checkIn s uid d n with
  | error e => exact h
  | ok s2 =>
    unfold checkIn at hc
    cases hfind : findAttendance s uid d with
    | some r => rw [hfind] at hc; cases hc
    | none =>
      rw [hfind] at hc
      cases hc
      obtain ⟨h1, h2, h3, h4⟩ := h
      refine ⟨?_, h2, h3, h4⟩
      rw [List.pairwise_append]
      refine ⟨h1, List.pairwise_singleton _ _, ?_⟩
      intro a ha b hb
      simp only [List.mem_singleton] at hb
      subst hb
      have hnp := List.find?_eq_none.mp hfind a ha
      intro hcontra
      apply hnp
      simp [hcontra.1, hcontra.2]

theorem wf_checkOut (s : ErpState) (uid d n : Nat) (h : WF s) :
    WF (applyOp s (.checkOut uid d n)) := by
  simp only [applyOp]
  split
  · next s2 hc =>
    unfold checkOut at hc
    split at hc
    · cases hc
    · split at hc
      · cases hc
      · cases hc
        obtain ⟨h1, h2, h3, h4⟩ := h
        exact ⟨pairwise_setCheckOut h1, h2, h3, h4⟩
  · exact h

theorem wf_raiseTicket (s : ErpState) (cid : Nat) (st de : String) (n : Nat)
    (h : WF s) : WF (applyOp s (.raiseTicket cid st de n)) := by
  simp only [applyOp, raiseTicket]
  obtain ⟨h1, h2, h3, h4⟩ := h
  refine ⟨h1, ?_, ?_, ?_⟩
  · intro t ht
    rcases List.mem_append.mp ht with hmem | hmem
    · exact h2 t hmem
    · simp only [List.mem_singleton] at hmem
      subst hmem
      exact ⟨Or.inl rfl, by simp⟩
  · rw [List.pairwise_append]
    refine ⟨h3, List.pairwise_singleton _ _, ?_⟩
    intro a ha b hb
    simp only [List.mem_singleton] at hb
    subst hb
    exact Nat.ne_of_lt (h4 a ha)
  · intro t ht
    rcases List.mem_append.mp ht with hmem | hmem
    · exact Nat.lt_succ_of_lt (h4 t hmem)
    · simp only [List.mem_singleton] at hmem
      subst hmem
      exact Nat.lt_succ_self _

theorem wf_assignTicket (s : ErpState) (tid sid n : Nat) (h : WF s) :
    WF (applyOp s (.assignTicket tid sid n)) := by
  simp only [applyOp]
  split
  · next s2 hc =>
    unfold assignTicket at hc
    split at hc
    · cases hc
    · next t hft =>
      split at hc
      · split at hc
        · cases hc
          obtain ⟨h1, h2, h3, h4⟩ := h
          have htmem : t ∈ s.tickets := List.mem_of_find?_eq_some hft
          have htid : t.ticket_id = tid := by
            simpa using List.find?_some hft
          have htid2 : ServiceTicket.ticket_id { t with assigned_to := some sid, status := "In Progress", updated_at := n } = tid := htid
          refine ⟨h1, ?_, pairwise_replaceTicket htid2 h3, ?_⟩
          · intro x hx
            rcases mem_replaceTicket hx with hmem | hmem
            · exact h2 x hmem
            · subst hmem
              exact ⟨Or.inr (Or.inl rfl), by simp⟩
          · intro x hx
            rcases mem_replaceTicket hx with hmem | hmem
            · exact h4 x hmem
            · subst hmem
              exact h4 t htmem
        · cases hc
      · cases hc
  · exact h

theorem wf_completeTicket (s : ErpState) (tid uid n : Nat) (h : WF s) :
    WF (applyOp s (.completeTicket tid uid n)) := by
  simp only [applyOp]
  split
  · next s2 hc =>
    unfold completeTicket at hc
    split at hc
    · cases hc
    · next t hft =>
      split at hc
      · next hass =>
        split at hc
        · cases hc
        · cases hc
          obtain ⟨h1, h2, h3, h4⟩ := h
          have htmem : t ∈ s.tickets := List.mem_of_find?_eq_some hft
          have htid : t.ticket_id = tid := by
            simpa using List.find?_some hft
          have htid2 : ServiceTicket.ticket_id { t with status := "Completed", updated_at := n } = tid := htid
          refine ⟨h1, ?_, pairwise_replaceTicket htid2 h3, ?_⟩
          · intro x hx
            rcases mem_replaceTicket hx with hmem | hmem
            · exact h2 x hmem
            · subst hmem
              refine ⟨Or.inr (Or.inr rfl), ?_⟩
              simp [hass]
          · intro x hx
            rcases mem_replaceTicket hx with hmem | hmem
            · exact h4 x hmem
            · subst hmem
              exact h4 t htmem
      · cases hc
  · exact h

theorem wf_applyOp (s : ErpState) (op : Op) (h : WF s) : WF (applyOp s op) := by
  cases op with
  | register r => exact wf_register s r h
  | checkIn uid d n => exact wf_checkIn s uid d n h
  | checkOut uid d n => exact wf_checkOut s uid d n h
  | raiseTicket cid st de n => exact wf_raiseTicket s cid st de n h
  | assignTicket tid sid n => exact wf_assignTicket s tid sid n h
  | completeTicket tid uid n => exact wf_completeTicket s tid uid n h

theorem wf_run (ops : List Op) : ∀ s : ErpState, WF s → WF (run s ops) := by
  induction ops with
  | nil => intro s h; exact h
  | cons op rest ih => intro s h; exact ih _ (wf_applyOp s op h)

theorem wf_reachable {s : ErpState} (h : Reachable s) : WF s := by
  obtain ⟨ops, rfl⟩ := h
  exact wf_run ops initState wf_initState

theorem reachable_initState : Reachable initState :=
  ⟨[], rfl⟩

theorem reachable_applyOp {s : ErpState} (h : Reachable s) (op : Op) :
    Reachable (applyOp s op) := by
  obtain ⟨ops, rfl⟩ := h
  exact ⟨ops ++ [op], by simp [run]⟩

/-! ## Characterization lemmas for the operations -/

theorem checkIn_eq_of_some {s : ErpState} {uid d : Nat} {r : AttendanceRecord}
    (hfind : findAttendance s uid d = some r) (n : Nat) :
    checkIn s uid d n = .error .AlreadyCheckedIn := by
  unfold checkIn
  rw [hfind]

theorem checkOut_eq_of_none {s : ErpState} {uid d : Nat}
    (hfind : findAttendance s uid d = none) (n : Nat) :
    checkOut s uid d n = .error .NoOpenSession := by
  unfold checkOut
  rw [hfind]

theorem checkOut_eq_of_some {s : ErpState} {uid d : Nat} {r : AttendanceRecord}
    (hfind : findAttendance s uid d = some r) (n : Nat) :
    checkOut s uid d n =
      (match r.check_out with
       | some _ => .error .AlreadyCheckedOut
       | none => .ok { s with attendance := setCheckOut uid d n s.attendance }) := by
  unfold checkOut
  rw [hfind]

theorem assignTicket_eq_of_some {s : ErpState} {tid : Nat} {t : ServiceTicket}
    (hfind : findTicket s tid = some t) (staffId now : Nat) :
    assignTicket s tid staffId now =
      (if t.status = "Pending" then
        (if isStaffUser s staffId then
          Except.ok
            { s with
              tickets :=
                replaceTicket tid
                  { t with
                    assigned_to := some staffId, status := "In Progress",
                    updated_at := now }
                  s.tickets }
         else .error .UnknownStaff)
       else .error .InvalidTransition) := by
  unfold assignTicket
  rw [hfind]

theorem completeTicket_eq_of_some {s : ErpState} {tid : Nat} {t : ServiceTicket}
    (hfind : findTicket s tid = some t) (uid now : Nat) :
    completeTicket s tid uid now =
      (if t.assigned_to = some uid then
        (if t.status = "Completed" then .error .InvalidTransition
         else
           Except.ok
             { s with
               tickets :=
                 replaceTicket tid
                   { t with status := "Completed", updated_at := now }
                   s.tickets })
       else .error .NotAssignee) := by
  unfold completeTicket
  rw [hfind]

theorem applyOp_checkIn_error {s : ErpState} {uid d n : Nat} {e : ErpError}
    (h : checkIn s uid d n = .error e) : applyOp s (.checkIn uid d n) = s := by
  simp only [applyOp, h]

theorem applyOp_checkOut_error {s : ErpState} {uid d n : Nat} {e : ErpError}
    (h : checkOut s uid d n = .error e) : applyOp s (.checkOut uid d n) = s := by
  simp only [applyOp, h]

theorem applyOp_assignTicket_error {s : ErpState} {tid sid n : Nat} {e : ErpError}
    (h : assignTicket s tid sid n = .error e) :
    applyOp s (.assignTicket tid sid n) = s := by
  simp only [applyOp, h]

theorem applyOp_completeTicket_error {s : ErpState} {tid uid n : Nat} {e : ErpError}
    (h : completeTicket s tid uid n = .error e) :
    applyOp s (.completeTicket tid uid n) = s := by
  simp only [applyOp, h]

theorem applyOp_register_error {s : ErpState} {r : Registration} {e : ErpError}
    (h : register_user s r = .error e) : applyOp s (.register r) = s := by
  simp only [applyOp, h]

theorem register_user_ok_tickets {s : ErpState} {r : Registration}
    {p : ErpState × User} (h : register_user s r = .ok p) :
    p.1.tickets = s.tickets := by
  unfold register_user at h
  split at h
  · cases h
  · split at h
    · cases h
    · cases h; rfl

theorem tickets_applyOp_register (s : ErpState) (r : Registration) :
    (applyOp s (.register r)).tickets = s.tickets := by
  simp only [applyOp]
  split
  · next s2 u hc => exact register_user_ok_tickets hc
  · rfl

theorem tickets_applyOp_checkIn (s : ErpState) (uid d n : Nat) :
    (applyOp s (.checkIn uid d n)).tickets = s.tickets := by
  simp only [applyOp]
  split
  · next s2 hc =>
    unfold checkIn at hc
    split at hc
    · cases hc
    · cases hc; rfl
  · rfl

theorem tickets_applyOp_checkOut (s : ErpState) (uid d n : Nat) :
    (applyOp s (.checkOut uid d n)).tickets = s.tickets := by
  simp only [applyOp]
  split
  · next s2 hc =>
    unfold checkOut at hc
    split at hc
    · cases hc
    · split at hc
      · cases hc
      · cases hc; rfl
  · rfl

theorem tickets_applyOp_raiseTicket (s : ErpState) (cid : Nat) (st de : String)
    (n : Nat) :
    (applyOp s (.raiseTicket cid st de n)).tickets =
      s.tickets ++
        [{ ticket_id := s.nextTicketId, client_id := cid, service_type := st,
           description := de, assigned_to := none, status := "Pending",
           created_at := n, updated_at := n }] := rfl

theorem length_filter_key_le_one {uid d : Nat} :
    ∀ {l : List AttendanceRecord},
      l.Pairwise (fun a b => ¬(a.user_id = b.user_id ∧ a.date = b.date)) →
      (l.filter (fun r => r.user_id == uid && r.date == d)).length ≤ 1 := by
  intro l
  induction l with
  | nil => intro _; simp
  | cons y rest ih =>
    intro hp
    rcases List.pairwise_cons.mp hp with ⟨hy, hrest⟩
    by_cases hmatch : (y.user_id == uid && y.date == d) = true
    · rw [filter_cons_pos (fun r => r.user_id == uid && r.date == d) y rest hmatch]
      have hnil : rest.filter (fun r => r.user_id == uid && r.date == d) = [] := by
        rw [List.filter_eq_nil_iff]
        intro b hb hbm
        have hym : y.user_id = uid ∧ y.date = d := by simpa using hmatch
        have hbm2 : b.user_id = uid ∧ b.date = d := by simpa using hbm
        exact hy b hb ⟨hym.1.trans hbm2.1.symm, hym.2.trans hbm2.2.symm⟩
      rw [hnil]
      simp
    · rw [filter_cons_neg (fun r => r.user_id == uid && r.date == d) y rest hmatch]
      exact ih hrest

/-! ## The verified properties -/

/-- C1: in every reachable state each `(user, date)` pair has at most one
attendance record, and when a record for that pair exists (open or closed)
a further check-in attempt always fails with `AlreadyCheckedIn` and leaves
the state unchanged, creating no new record. -/
theorem checkIn_at_most_one_record_per_day (s : ErpState) (uid d : Nat)
    (hs : Reachable s) :
    (s.attendance.filter (fun r => r.user_id == uid && r.date == d)).length ≤ 1 ∧
    (∀ r ∈ s.attendance, r.user_id = uid → r.date = d → ∀ nowT : Nat,
      checkIn s uid d nowT = .error .AlreadyCheckedIn ∧
      applyOp s (.checkIn uid d nowT) = s) := by
  have hwf := wf_reachable hs
  refine ⟨length_filter_key_le_one hwf.1, ?_⟩
  intro r hr hru hrd nowT
  have hne : findAttendance s uid d ≠ none := by
    intro hnone
    exact (List.find?_eq_none.mp hnone r hr) (by simp [hru, hrd])
  cases hfind : findAttendance s uid d with
  | none => exact absurd hfind hne
  | some r2 =>
    have herr := checkIn_eq_of_some hfind nowT
    exact ⟨herr, applyOp_checkIn_error herr⟩

/-- Witness for C1 on the concrete state `sAtt`. -/
theorem checkIn_at_most_one_record_per_day_witness :
    (sAtt.attendance.filter (fun r => r.user_id == 1 && r.date == 3)).length ≤ 1 ∧
    (checkIn sAtt 1 3 600 = .error .AlreadyCheckedIn ∧
      applyOp sAtt (.checkIn 1 3 600) = sAtt) := by
  have h := checkIn_at_most_one_record_per_day sAtt 1 3
    ⟨[.register staffReg, .checkIn 1 3 540], rfl⟩
  exact ⟨h.1,
    h.2 { attendance_id := 1, user_id := 1, date := 3, check_in := some 540,
          check_out := none } (by decide) rfl rfl 600⟩

/-- C2: ticket status only ever moves forward along
Pending → In Progress → Completed: one engine step either leaves a
ticket's status unchanged, moves Pending to In Progress (assignment), or
moves In Progress to Completed (completion); in particular no backward
move and no direct Pending → Completed step exists. -/
theorem ticket_status_monotonic (s : ErpState) (op : Op) (tid : Nat)
    (t t2 : ServiceTicket) (hs : Reachable s)
    (hfind : findTicket s tid = some t)
    (hfind2 : findTicket (applyOp s op) tid = some t2) :
    t2.status = t.status ∨
    (t.status = "Pending" ∧ t2.status = "In Progress") ∨
    (t.status = "In Progress" ∧ t2.status = "Completed") := by
  unfold findTicket at hfind
  cases op with
  | register r =>
    left
    unfold findTicket at hfind2
    rw [tickets_applyOp_register] at hfind2
    rw [hfind] at hfind2
    injection hfind2 with h
    rw [h]
  | checkIn uid d n =>
    left
    unfold findTicket at hfind2
    rw [tickets_applyOp_checkIn] at hfind2
    rw [hfind] at hfind2
    injection hfind2 with h
    rw [h]
  | checkOut uid d n =>
    left
    unfold findTicket at hfind2
    rw [tickets_applyOp_checkOut] at hfind2
    rw [hfind] at hfind2
    injection hfind2 with h
    rw [h]
  | raiseTicket cid st de n =>
    left
    unfold findTicket at hfind2
    rw [tickets_applyOp_raiseTicket] at hfind2
    rw [find?_append_some hfind] at hfind2
    injection hfind2 with h
    rw [h]
  | assignTicket tid0 sid n =>
    simp only [applyOp] at hfind2
    split at hfind2
    · next s2 hc =>
      unfold assignTicket at hc
      split at hc
      · cases hc
      · next t0 hft0 =>
        split at hc
        · next hstat =>
          split at hc
          · next hstaff =>
            cases hc
            have ht0id : t0.ticket_id = tid0 := by
              simpa using List.find?_some hft0
            have hupd : ServiceTicket.ticket_id { t0 with assigned_to := some sid, status := "In Progress", updated_at := n } = tid0 := ht0id
            have hfind3 : (replaceTicket tid0 { t0 with assigned_to := some sid, status := "In Progress", updated_at := n } s.tickets).find? (fun x => x.ticket_id == tid) = some t2 := hfind2
            by_cases htid : tid = tid0
            · subst htid
              unfold findTicket at hft0
              rw [hfind] at hft0
              injection hft0 with h0
              rw [find?_replaceTicket_self hupd hfind] at hfind3
              injection hfind3 with h1
              right; left
              refine ⟨by rw [h0]; exact hstat, by rw [← h1]⟩
            · rw [find?_replaceTicket_other htid hupd] at hfind3
              rw [hfind] at hfind3
              injection hfind3 with h1
              left
              rw [h1]
          · cases hc
        · cases hc
    · next e hc =>
      left
      unfold findTicket at hfind2
      rw [hfind] at hfind2
      injection hfind2 with h
      rw [h]
  | completeTicket tid0 uid0 n =>
    simp only [applyOp] at hfind2
    split at hfind2
    · next s2 hc =>
      unfold completeTicket at hc
      split at hc
      · cases hc
      · next t0 hft0 =>
        split at hc
        · next hass =>
          split at hc
          · cases hc
          · next hstat =>
            cases hc
            have hwf := wf_reachable hs
            have htOK := hwf.2.1 t0 (List.mem_of_find?_eq_some hft0)
            have hIP : t0.status = "In Progress" := by
              rcases htOK.2.mp (by simp [hass]) with h | h
              · exact h
              · exact absurd h hstat
            have ht0id : t0.ticket_id = tid0 := by
              simpa using List.find?_some hft0
            have hupd : ServiceTicket.ticket_id { t0 with status := "Completed", updated_at := n } = tid0 := ht0id
            have hfind3 : (replaceTicket tid0 { t0 with status := "Completed", updated_at := n } s.tickets).find? (fun x => x.ticket_id == tid) = some t2 := hfind2
            by_cases htid : tid = tid0
            · subst htid
              unfold findTicket at hft0
              rw [hfind] at hft0
              injection hft0 with h0
              rw [find?_replaceTicket_self hupd hfind] at hfind3
              injection hfind3 with h1
              right; right
              refine ⟨by rw [h0]; exact hIP, by rw [← h1]⟩
            · rw [find?_replaceTicket_other htid hupd] at hfind3
              rw [hfind] at hfind3
              injection hfind3 with h1
              left
              rw [h1]
        · cases hc
    · next e hc =>
      left
      unfold findTicket at hfind2
      rw [hfind] at hfind2
      injection hfind2 with h
      rw [h]

/-- Witness for C2: assigning the pending ticket of `sPend` takes it
from Pending to In Progress. -/
theorem ticket_status_monotonic_witness :
    tProg.status = tPend.status ∨
    (tPend.status = "Pending" ∧ tProg.status = "In Progress") ∨
    (tPend.status = "In Progress" ∧ tProg.status = "Completed") :=
  ticket_status_monotonic sPend (.assignTicket 1 1 20) 1 tPend tProg
    ⟨[.register staffReg, .raiseTicket 5 "Plumber" "leak" 10], rfl⟩
    (by decide) (by decide)

/-- C3: in every reachable state `assigned_to` is set on a ticket exactly
when its status is In Progress or Completed, and this stays true after any
further operation. -/
theorem assigned_iff_started (s : ErpState) (hs : Reachable s) :
    (∀ t ∈ s.tickets, t.assigned_to.isSome = true ↔
      (t.status = "In Progress" ∨ t.status = "Completed")) ∧
    (∀ op : Op, ∀ t ∈ (applyOp s op).tickets, t.assigned_to.isSome = true ↔
      (t.status = "In Progress" ∨ t.status = "Completed")) := by
  have hwf := wf_reachable hs
  exact ⟨fun t ht => (hwf.2.1 t ht).2,
    fun op t ht => ((wf_applyOp s op hwf).2.1 t ht).2⟩

/-- Witness for C3 on the assigned ticket of `sProg`. -/
theorem assigned_iff_started_witness :
    tProg.assigned_to.isSome = true ↔
      (tProg.status = "In Progress" ∨ tProg.status = "Completed") :=
  (assigned_iff_started sProg
    ⟨[.register staffReg, .raiseTicket 5 "Plumber" "leak" 10,
      .assignTicket 1 1 20], rfl⟩).1 tProg (by decide)

/-- C4: assigning a ticket whose status is not Pending always fails with
`InvalidTransition` and leaves the state (in particular the ticket's
`assigned_to` and `status`) unchanged. -/
theorem assign_nonpending_fails (s : ErpState) (tid staffId now : Nat)
    (t : ServiceTicket) (hfind : findTicket s tid = some t)
    (hstat : t.status ≠ "Pending") :
    assignTicket s tid staffId now = .error .InvalidTransition ∧
    applyOp s (.assignTicket tid staffId now) = s := by
  have herr : assignTicket s tid staffId now = .error .InvalidTransition := by
    rw [assignTicket_eq_of_some hfind, if_neg hstat]
  exact ⟨herr, applyOp_assignTicket_error herr⟩

/-- Witness for C4 on the In Progress ticket of `sProg`. -/
theorem assign_nonpending_fails_witness :
    assignTicket sProg 1 1 30 = .error .InvalidTransition ∧
    applyOp sProg (.assignTicket 1 1 30) = sProg :=
  assign_nonpending_fails sProg 1 1 30 tProg (by decide) (by decide)

/-- C5: in every reachable state, completing a ticket succeeds exactly when
the acting user is its `assigned_to` and its status is In Progress; an
attempt by any other user fails with `NotAssignee` and changes nothing. -/
theorem complete_requires_assignee_in_progress (s : ErpState)
    (tid uid now : Nat) (t : ServiceTicket) (hs : Reachable s)
    (hfind : findTicket s tid = some t) :
    (erpSucceeds (completeTicket s tid uid now) = true ↔
      (t.assigned_to = some uid ∧ t.status = "In Progress")) ∧
    (t.assigned_to ≠ some uid →
      completeTicket s tid uid now = .error .NotAssignee ∧
      applyOp s (.completeTicket tid uid now) = s) := by
  have hwf := wf_reachable hs
  have htOK := hwf.2.1 t (List.mem_of_find?_eq_some hfind)
  constructor
  · rw [completeTicket_eq_of_some hfind]
    constructor
    · intro hok
      by_cases hass : t.assigned_to = some uid
      · refine ⟨hass, ?_⟩
        by_cases hstat : t.status = "Completed"
        · rw [if_pos hass, if_pos hstat] at hok
          simp [erpSucceeds] at hok
        · rcases htOK.2.mp (by simp [hass]) with h | h
          · exact h
          · exact absurd h hstat
      · rw [if_neg hass] at hok
        simp [erpSucceeds] at hok
    · rintro ⟨hass, hIP⟩
      rw [if_pos hass, if_neg (by rw [hIP]; decide)]
      rfl
  · intro hass
    have herr : completeTicket s tid uid now = .error .NotAssignee := by
      rw [completeTicket_eq_of_some hfind, if_neg hass]
    exact ⟨herr, applyOp_completeTicket_error herr⟩

/-- Witness for C5: on `sProg` (ticket 1 assigned to staff 1), a completion
attempt by user 2 is characterized by the theorem. -/
theorem complete_requires_assignee_in_progress_witness :
    ((erpSucceeds (completeTicket sProg 1 2 30) = true ↔
      (tProg.assigned_to = some 2 ∧ tProg.status = "In Progress")) ∧
     (tProg.assigned_to ≠ some 2 →
       completeTicket sProg 1 2 30 = .error .NotAssignee ∧
       applyOp sProg (.completeTicket 1 2 30) = sProg)) :=
  complete_requires_assignee_in_progress sProg 1 2 30 tProg
    ⟨[.register staffReg, .raiseTicket 5 "Plumber" "leak" 10,
      .assignTicket 1 1 20], rfl⟩ (by decide)

/-- C6: check-out with no record for the day fails with `NoOpenSession`;
check-out on an already closed record fails with `AlreadyCheckedOut`;
both failures change nothing; check-out on an open record stamps its
check-out time with `now`, closing it. -/
theorem checkout_state_machine (s : ErpState) (uid d nowT : Nat) :
    (findAttendance s uid d = none →
      checkOut s uid d nowT = .error .NoOpenSession ∧
      applyOp s (.checkOut uid d nowT) = s) ∧
    (∀ r, findAttendance s uid d = some r → r.check_out.isSome = true →
      checkOut s uid d nowT = .error .AlreadyCheckedOut ∧
      applyOp s (.checkOut uid d nowT) = s) ∧
    (∀ r, findAttendance s uid d = some r → r.check_out = none →
      ∃ s2, checkOut s uid d nowT = .ok s2 ∧
        findAttendance s2 uid d = some { r with check_out := some nowT }) := by
  refine ⟨?_, ?_, ?_⟩
  · intro hnone
    have herr := checkOut_eq_of_none hnone nowT
    exact ⟨herr, applyOp_checkOut_error herr⟩
  · intro r hfind hco
    obtain ⟨v, hv⟩ := Option.isSome_iff_exists.mp hco
    have herr : checkOut s uid d nowT = .error .AlreadyCheckedOut := by
      rw [checkOut_eq_of_some hfind, hv]
    exact ⟨herr, applyOp_checkOut_error herr⟩
  · intro r hfind hco
    refine ⟨{ s with attendance := setCheckOut uid d nowT s.attendance }, ?_, ?_⟩
    · rw [checkOut_eq_of_some hfind, hco]
    · exact find?_setCheckOut hfind

/-- Witness for C6: no-session, already-closed and successful check-out on
the concrete states `sAtt` and `sAttClosed`. -/
theorem checkout_state_machine_witness :
    (checkOut sAtt 2 3 900 = .error .NoOpenSession ∧
      applyOp sAtt (.checkOut 2 3 900) = sAtt) ∧
    (checkOut sAttClosed 1 3 905 = .error .AlreadyCheckedOut ∧
      applyOp sAttClosed (.checkOut 1 3 905) = sAttClosed) ∧
    (∃ s2, checkOut sAtt 1 3 900 = .ok s2 ∧
      findAttendance s2 1 3 = some { attendance_id := 1, user_id := 1,
                                     date := 3, check_in := some 540,
                                     check_out := some 900 }) := by
  refine ⟨(checkout_state_machine sAtt 2 3 900).1 (by decide),
    (checkout_state_machine sAttClosed 1 3 905).2.1
      { attendance_id := 1, user_id := 1, date := 3, check_in := some 540,
        check_out := some 900 } (by decide) rfl, ?_⟩
  exact (checkout_state_machine sAtt 1 3 900).2.2
    { attendance_id := 1, user_id := 1, date := 3, check_in := some 540,
      check_out := none } (by decide) rfl

/-- C7 counterexample: `client_service_request` performs no description
validation — raising a ticket with an empty description in the empty
database succeeds and stores the empty description; it is not rejected. -/
theorem raise_empty_description_not_rejected :
    raisedTicket (raiseTicket initState 7 "Plumber" "" 100) =
      some { ticket_id := 1, client_id := 7, service_type := "Plumber",
             description := "", assigned_to := none, status := "Pending",
             created_at := 100, updated_at := 100 } := by
  decide

/-- C7 (amended): raising a ticket whose service type comes from the fixed
selectbox categories always succeeds and appends a ticket with status
Pending, no assignee, both timestamps set to now, and the given client,
service type and description stored verbatim; the description is not
validated, so an empty description is accepted as well. -/
theorem raise_creates_pending_ticket (s : ErpState) (cid : Nat)
    (stype descr : String) (now : Nat) (hstype : stype ∈ serviceCategories) :
    ∃ p : ErpState × ServiceTicket,
      raiseTicket s cid stype descr now = .ok p ∧
      p.2.status = "Pending" ∧ p.2.assigned_to = none ∧
      p.2.created_at = now ∧ p.2.updated_at = now ∧
      p.2.client_id = cid ∧ p.2.service_type = stype ∧
      p.2.description = descr ∧
      p.1.tickets = s.tickets ++ [p.2] :=
  ⟨_, rfl, rfl, rfl, rfl, rfl, rfl, rfl, rfl, rfl⟩

/-- Witness for C7 (amended) at a concrete raise with empty description. -/
theorem raise_creates_pending_ticket_witness :
    "Plumber" ∈ serviceCategories ∧
    (∃ p : ErpState × ServiceTicket,
      raiseTicket initState 7 "Plumber" "" 100 = .ok p ∧
      p.2.status = "Pending" ∧ p.2.assigned_to = none ∧
      p.2.created_at = 100 ∧ p.2.updated_at = 100 ∧
      p.2.client_id = 7 ∧ p.2.service_type = "Plumber" ∧
      p.2.description = "" ∧
      p.1.tickets = initState.tickets ++ [p.2]) :=
  ⟨by decide,
   raise_creates_pending_ticket initState 7 "Plumber" "" 100 (by decide)⟩

/-- C8 counterexample: `attendance_report` has no `order_by` — it returns
rows in table insertion order, not ordered by date then user identifier:
on `sReport` both records are dated day 3, yet the record of user 2
precedes that of user 1. -/
theorem report_not_sorted_by_date_then_user :
    attendance_report sReport 3 3 =
      [{ attendance_id := 1, user_id := 2, date := 3, check_in := some 540,
         check_out := none },
       { attendance_id := 2, user_id := 1, date := 3, check_in := some 545,
         check_out := none }] ∧
    sortedByDateUser (attendance_report sReport 3 3) = false := by
  exact ⟨by decide, by decide⟩

/-- C8 (amended): the report returns exactly the records whose date lies in
the inclusive range `[start, end]` (so `start = end` yields exactly that
day's records, empty when none exist, and no error is possible), in table
insertion order — a sublist of the stored table — rather than sorted by
date then user identifier. -/
theorem report_inclusive_range_insertion_order (s : ErpState) (a b : Nat) :
    (∀ r : AttendanceRecord, r ∈ attendance_report s a b ↔
      (r ∈ s.attendance ∧ a ≤ r.date ∧ r.date ≤ b)) ∧
    (attendance_report s a b).Sublist s.attendance := by
  constructor
  · intro r
    simp [attendance_report, List.mem_filter, and_assoc]
  · exact List.filter_sublist _

/-- Witness for C8 (amended) on the concrete state `sReport`. -/
theorem report_inclusive_range_insertion_order_witness :
    (({ attendance_id := 1, user_id := 2, date := 3, check_in := some 540,
        check_out := none } : AttendanceRecord) ∈ attendance_report sReport 3 3 ↔
      (({ attendance_id := 1, user_id := 2, date := 3, check_in := some 540,
          check_out := none } : AttendanceRecord) ∈ sReport.attendance ∧
        3 ≤ 3 ∧ 3 ≤ 3)) ∧
    (attendance_report sReport 3 3).Sublist sReport.attendance :=
  ⟨(report_inclusive_range_insertion_order sReport 3 3).1 _,
   (report_inclusive_range_insertion_order sReport 3 3).2⟩

/-- C9 counterexample: user creation never validates the role — registering
with role `"wizard"` in the empty database succeeds and stores a user whose
role is `"wizard"`, instead of failing with `InvalidRole` and creating no
user. -/
theorem register_accepts_unknown_role :
    (registeredUser (register_user initState regWizard)).map User.role =
      some "wizard" := by
  decide

/-- C9 (amended): user creation performs no role validation —
`register_user` with matching passwords and a fresh email always succeeds
and stores the supplied role string verbatim (no `InvalidRole` failure
exists in the code); membership in the fixed role enum is ensured only by
the registration form's selectbox, which offers exactly `roleOptions`. -/
theorem register_stores_role_verbatim (s : ErpState) (r : Registration)
    (hpw : r.password = r.confirm_password)
    (hmail : get_user_by_email s r.email = none) :
    ∃ p : ErpState × User,
      register_user s r = .ok p ∧ p.2.role = r.role ∧
      p.1.users = s.users ++ [p.2] ∧
      (r.role ∈ roleOptions → p.2.role ∈ roleOptions) := by
  unfold register_user
  rw [if_neg (not_not_intro hpw), hmail]
  exact ⟨create_user s r.toUserData, rfl, rfl, rfl, fun h => h⟩

/-- Witness for C9 (amended) on the concrete staff registration. -/
theorem register_stores_role_verbatim_witness :
    staffReg.password = staffReg.confirm_password ∧
    get_user_by_email initState staffReg.email = none ∧
    (∃ p : ErpState × User,
      register_user initState staffReg = .ok p ∧ p.2.role = staffReg.role ∧
      p.1.users = initState.users ++ [p.2] ∧
      (staffReg.role ∈ roleOptions → p.2.role ∈ roleOptions)) :=
  ⟨rfl, rfl, register_stores_role_verbatim initState staffReg rfl rfl⟩

/-- C10: when the password and confirm-password inputs differ, registration
is rejected (the `"Passwords do not match!"` branch, modelled as
`PasswordMismatch`) and no user record is created, whatever the other
fields hold. -/
theorem register_mismatched_passwords_rejected (s : ErpState)
    (r : Registration) (h : r.password ≠ r.confirm_password) :
    register_user s r = .error .PasswordMismatch ∧
    applyOp s (.register r) = s := by
  have herr : register_user s r = .error .PasswordMismatch := by
    unfold register_user
    rw [if_pos h]
  exact ⟨herr, applyOp_register_error herr⟩

/-- Witness for C10 on the concrete mismatched registration. -/
theorem register_mismatched_passwords_rejected_witness :
    regMismatch.password ≠ regMismatch.confirm_password ∧
    (register_user initState regMismatch = .error .PasswordMismatch ∧
      applyOp initState (.register regMismatch) = initState) :=
  ⟨by decide,
   register_mismatched_passwords_rejected initState regMismatch (by decide)⟩

end Erp
